import Mathlib

/-!
Verification of the payment module (`src/app.py`): a shallow embedding of
`PaymentModule` — phone validation, branch-limit validation, tier pricing,
password generation (base64), access-token acquisition, payment initiation,
and the failure/grace-period state machine — together with theorems settling
the specification claims.

Modelling conventions:
* Python `int` is `Int` (arbitrary precision, no overflow); counters that are
  only incremented from 0 are `Nat`.
* Wall-clock instants are `Nat` seconds; `timedelta(days=d)` is `d * 86400`.
* Byte strings (`str.encode()` results) are `List Nat` with entries `< 256`.
* JSON response bodies are flat string-valued association lists, which covers
  every field the code reads (`access_token`, `ResponseCode`).
* The regex class `\d` is modelled as an ASCII decimal digit.
* Exceptions (`KeyError` from an unknown tier key, `TypeError` from comparing
  a `datetime` with `None`) are explicit `Except.error` results.
* Network effects are oracles passed as arguments: the outcome of the token
  `GET` and of the push `POST` are inputs to `initiate_payment`.
-/

/-! ## Phone-number validation (`validate_phone_number`, `re.match(r"^2547\d{8}$", s)`) -/

/-- The regex class `\d`, restricted to ASCII decimal digits. -/
def isPyDigit (c : Char) : Bool :=
  c.isDigit

/-- Where Python `$` (without `re.MULTILINE`) matches: at the end of the
string, or just before a single newline that ends the string. -/
def dollarAtEnd : List Char → Bool
  | [] => true
  | [c] => c == '\n'
  | _ => false

/-- Matches `\d{k}$` against the remaining characters. -/
def digitsThenEnd : Nat → List Char → Bool
  | 0, rest => dollarAtEnd rest
  | _ + 1, [] => false
  | k + 1, c :: rest => isPyDigit c && digitsThenEnd k rest

/-- `PaymentModule.validate_phone_number`: `re.match(r"^2547\d{8}$", phone)`
converted to a Bool (diagnostics printed by the code are ignored). -/
def validate_phone_number (phone : String) : Bool :=
  match phone.data with
  | c1 :: c2 :: c3 :: c4 :: rest =>
    c1 == '2' && c2 == '5' && c3 == '4' && c4 == '7' && digitsThenEnd 8 rest
  | _ => false

/-! ## Subscription tiers and branch-limit validation -/

/-- One entry of `PaymentModule.SUBSCRIPTION_TIERS`: a price in currency
units and an optional branch limit (`None` = unlimited). -/
structure TierInfo where
  price : Int
  limit : Option Int
deriving DecidableEq, Repr

/-- `PaymentModule.SUBSCRIPTION_TIERS`. -/
def SUBSCRIPTION_TIERS : List (String × TierInfo) :=
  [("starter", ⟨100, some 10⟩),
   ("pro", ⟨300, some 100⟩),
   ("enterprise", ⟨500, none⟩)]

/-- Python dict `.get`: `SUBSCRIPTION_TIERS.get(k)`. -/
def tiersGet (k : String) : Option TierInfo :=
  (SUBSCRIPTION_TIERS.find? (fun p => p.1 == k)).map (·.2)

/-- `PaymentModule.MAX_BRANCHES_PER_ACTION`. -/
def MAX_BRANCHES_PER_ACTION : Int := 10

/-- `PaymentModule.GRACE_PERIOD_DAYS`. -/
def GRACE_PERIOD_DAYS : Nat := 7

/-- Python exceptions that the embedded code can raise. -/
inductive PyErr where
  | keyError (key : String)
  | typeError
deriving DecidableEq, Repr

/-- `PaymentModule.validate_branch_limit`: the global cap check runs first;
`SUBSCRIPTION_TIERS[subscription_tier]` raises `KeyError` on an unknown key
(line 76 of `app.py` indexes the dict directly, without `.get`). -/
def validate_branch_limit (subscription_tier : String) (num_branches : Int) :
    Except PyErr Bool :=
  if num_branches > MAX_BRANCHES_PER_ACTION then
    Except.ok false
  else
    match tiersGet subscription_tier with
    | none => Except.error (PyErr.keyError subscription_tier)
    | some td =>
      match td.limit with
      | some tier_limit =>
        if num_branches > tier_limit then Except.ok false else Except.ok true
      | none => Except.ok true

/-! ## Base64 and `generate_password` -/

/-- The standard base64 alphabet used by `base64.b64encode`. -/
def b64alphabet : List Char :=
  "ABCDEFGHIJKLMNOPQRSTUVWXYZabcdefghijklmnopqrstuvwxyz0123456789+/".data

/-- Character for a 6-bit group. -/
def b64chr (n : Nat) : Char :=
  b64alphabet.getD n 'A'

/-- Index of a character in the base64 alphabet (`none` for padding or
foreign characters). -/
def b64val (c : Char) : Option Nat :=
  b64alphabet.findIdx? (fun x => x == c)

/-- `base64.b64encode` on a byte list: 3-byte groups become 4 characters,
with `=` padding for a 1- or 2-byte tail. -/
def b64encode : List Nat → List Char
  | [] => []
  | [a] => [b64chr (a / 4), b64chr (a % 4 * 16), '=', '=']
  | [a, b] => [b64chr (a / 4), b64chr (a % 4 * 16 + b / 16), b64chr (b % 16 * 4), '=']
  | a :: b :: c :: rest =>
    b64chr (a / 4) :: b64chr (a % 4 * 16 + b / 16) ::
      b64chr (b % 16 * 4 + c / 64) :: b64chr (c % 64) :: b64encode rest

/-- Standard base64 decoding (`base64.b64decode`) on well-formed input:
4-character groups, padding only at the end. -/
def b64decode : List Char → Option (List Nat)
  | [] => some []
  | w :: x :: y :: z :: rest =>
    match b64val w, b64val x with
    | some vw, some vx =>
      if y = '=' ∧ z = '=' ∧ rest = [] then
        some [vw * 4 + vx / 16]
      else
        match b64val y with
        | some vy =>
          if z = '=' ∧ rest = [] then
            some [vw * 4 + vx / 16, vx % 16 * 16 + vy / 4]
          else
            match b64val z, b64decode rest with
            | some vz, some bs =>
              some ((vw * 4 + vx / 16) :: (vx % 16 * 16 + vy / 4) ::
                (vy % 4 * 64 + vz) :: bs)
            | _, _ => none
        | none => none
    | _, _ => none
  | _ => none

/-- All entries are bytes. -/
def bytesOk (bs : List Nat) : Bool :=
  bs.all (· < 256)

/-- Constructor-supplied configuration of a `PaymentModule` instance.
`shortcode` and `passkey` appear in `generate_password` through
`str.encode()`, so they are kept as byte lists. -/
structure Config where
  consumer_key : String
  consumer_secret : String
  shortcode : List Nat
  passkey : List Nat
  callback_url : String

/-- `PaymentModule.generate_password`: base64 of the concatenation
`shortcode ++ passkey ++ timestamp` (f-string concatenation, then
`.encode()`, then `b64encode`, then ASCII-decode). -/
def generate_password (cfg : Config) (timestamp : List Nat) : List Char :=
  b64encode (cfg.shortcode ++ cfg.passkey ++ timestamp)

/-! ## Failure state and `handle_payment_failure` -/

/-- The mutable failure-tracking state of a `PaymentModule` instance. -/
structure FailureState where
  failed_payment_attempts : Nat
  grace_period_end : Option Nat
deriving DecidableEq, Repr

/-- State set by `PaymentModule.__init__`. -/
def initFailureState : FailureState :=
  ⟨0, none⟩

/-- The notices printed by `handle_payment_failure`. -/
inductive Notice where
  | gracePeriodStarted
  | timeRemaining (deadline : Nat)
  | suspended
deriving DecidableEq, Repr

/-- `PaymentModule.handle_payment_failure`: increments the counter, then
branches on `failed_payment_attempts == 1` and on
`datetime.now() < self.grace_period_end`. Comparing against an absent
(`None`) grace-period end raises `TypeError` in Python 3, modelled as an
`Except.error` after the increment has already happened. -/
def handle_payment_failure (now : Nat) (s : FailureState) :
    FailureState × Except PyErr Notice :=
  let c := s.failed_payment_attempts + 1
  if c = 1 then
    (⟨c, some (now + GRACE_PERIOD_DAYS * 86400)⟩, Except.ok Notice.gracePeriodStarted)
  else
    match s.grace_period_end with
    | none => (⟨c, none⟩, Except.error PyErr.typeError)
    | some e =>
      if now < e then
        (⟨c, some e⟩, Except.ok (Notice.timeRemaining e))
      else
        (⟨c, some e⟩, Except.ok Notice.suspended)

/-! ## HTTP oracles, token acquisition, payment initiation -/

/-- Flat string-valued JSON object. -/
def jsonGet (body : List (String × String)) (k : String) : Option String :=
  (body.find? (fun p => p.1 == k)).map (·.2)

/-- Outcome of the token `GET` (`requests.get` + `raise_for_status`):
either a transport-level exception, or a response with a 2xx flag and a
parsed JSON body. -/
inductive GetResult where
  | transportError
  | response (ok2xx : Bool) (body : List (String × String))

/-- Outcome of the push `POST`: a transport-level exception or a parsed
JSON body (no `raise_for_status` is called on this response). -/
inductive PostResult where
  | transportError
  | response (body : List (String × String))

/-- `PaymentModule.get_access_token`: `raise_for_status` turns a non-2xx
status into a caught `RequestException` (returning `None`), and a missing
`access_token` field is returned as-is (`None`); a present but empty token
is also returned as-is. -/
def get_access_token (g : GetResult) : Option String :=
  match g with
  | GetResult.transportError => none
  | GetResult.response ok2xx body =>
    if ok2xx then jsonGet body "access_token" else none

/-- Python `str.lower` on the ASCII range (tier keys are ASCII). -/
def pyLower (s : String) : String :=
  String.mk (s.data.map Char.toLower)

/-- Python `str.capitalize` on the ASCII range. -/
def pyCapitalize (s : String) : String :=
  match s.data with
  | [] => ""
  | c :: cs => String.mk (c.toUpper :: cs.map Char.toLower)

/-- The JSON payload of the push `POST` built by `initiate_payment`. -/
structure Payload where
  BusinessShortCode : List Nat
  Password : List Char
  Timestamp : List Nat
  TransactionType : String
  Amount : Int
  PartyA : String
  PartyB : List Nat
  PhoneNumber : String
  CallBackURL : String
  AccountReference : String
  TransactionDesc : String
deriving DecidableEq

/-- Observable outcome of one `initiate_payment` call: the returned value
(or propagated exception), the failure state afterwards, the `POST` payload
when the push request was issued, and how many times
`handle_payment_failure` ran. -/
structure InitResult where
  result : Except PyErr (Option (List (String × String)))
  state : FailureState
  payload : Option Payload
  recordedFailures : Nat

/-- `PaymentModule.initiate_payment`, with the clock (`now`, and the
formatted `timestamp` byte string) and both HTTP outcomes as inputs. -/
def initiate_payment (cfg : Config) (s : FailureState)
    (phone_number subscription_tier : String) (num_branches : Int)
    (g : GetResult) (p : PostResult) (now : Nat) (timestamp : List Nat) :
    InitResult :=
  if validate_phone_number phone_number then
    match validate_branch_limit subscription_tier num_branches with
    | Except.error e => ⟨Except.error e, s, none, 0⟩
    | Except.ok false => ⟨Except.ok none, s, none, 0⟩
    | Except.ok true =>
      match tiersGet (pyLower subscription_tier) with
      | none => ⟨Except.ok none, s, none, 0⟩
      | some tier_details =>
        let base_price := tier_details.price
        let additional_branch_fee := num_branches * 100
        let total_amount := base_price + additional_branch_fee
        let account_reference := "Vendor_" ++ phone_number
        let transaction_desc :=
          pyCapitalize subscription_tier ++ " subscription with " ++
            toString num_branches ++ " branches"
        match get_access_token g with
        | none => ⟨Except.ok none, s, none, 0⟩
        | some access_token =>
          if access_token = "" then
            ⟨Except.ok none, s, none, 0⟩
          else
            let password := generate_password cfg timestamp
            let payload : Payload :=
              ⟨cfg.shortcode, password, timestamp, "CustomerBuyGoodsOnline",
               total_amount, phone_number, cfg.shortcode, phone_number,
               cfg.callback_url, account_reference, transaction_desc⟩
            match p with
            | PostResult.transportError =>
              ⟨(match (handle_payment_failure now s).2 with
                | Except.ok _ => Except.ok none
                | Except.error e => Except.error e),
               (handle_payment_failure now s).1, some payload, 1⟩
            | PostResult.response response_data =>
              if jsonGet response_data "ResponseCode" ≠ some "0" then
                ⟨(match (handle_payment_failure now s).2 with
                  | Except.ok _ => Except.ok (some response_data)
                  | Except.error e => Except.error e),
                 (handle_payment_failure now s).1, some payload, 1⟩
              else
                ⟨Except.ok (some response_data), s, some payload, 0⟩
  else
    ⟨Except.ok none, s, none, 0⟩

/-! ## Operation sequences on one `PaymentModule` instance -/

/-- One externally triggered operation on a `PaymentModule` instance. -/
inductive Op where
  | initiate (phone_number subscription_tier : String) (num_branches : Int)
      (g : GetResult) (p : PostResult) (now : Nat) (timestamp : List Nat)
  | recordFailure (now : Nat)

/-- Effect of one operation on the failure state. -/
def stepFS (cfg : Config) (s : FailureState) : Op → FailureState
  | Op.initiate phone tier n g p now ts =>
    (initiate_payment cfg s phone tier n g p now ts).state
  | Op.recordFailure now => (handle_payment_failure now s).1

/-- Failure state after a sequence of operations, starting from the state
set by the constructor. -/
def runOps (cfg : Config) (ops : List Op) : FailureState :=
  ops.foldl (stepFS cfg) initFailureState

/-! ## Helper lemmas: the failure-state machine -/

/-- Invariant of the failure state: the grace-period end is set exactly when
at least one failure has been recorded. -/
def FSInv (s : FailureState) : Prop :=
  s.grace_period_end.isSome = true ↔ 1 ≤ s.failed_payment_attempts

theorem FSInv_init : FSInv initFailureState := by
  simp [FSInv, initFailureState]

theorem handle_count (now : Nat) (s : FailureState) :
    ((handle_payment_failure now s).1).failed_payment_attempts =
      s.failed_payment_attempts + 1 := by
  obtain ⟨c, ge⟩ := s
  unfold handle_payment_failure
  dsimp only
  split
  · rfl
  · cases ge with
    | none => rfl
    | some e =>
      dsimp only
      split <;> rfl

theorem handle_FSInv (now : Nat) (s : FailureState) (h : FSInv s) :
    FSInv ((handle_payment_failure now s).1) := by
  obtain ⟨c, ge⟩ := s
  unfold FSInv at h ⊢
  cases c with
  | zero => simp [handle_payment_failure]
  | succ k =>
    cases ge with
    | none => simp at h
    | some e => simp [handle_payment_failure]; split <;> simp

theorem handle_end_mono (now : Nat) (s : FailureState) (e : Nat)
    (hinv : FSInv s) (h : s.grace_period_end = some e) :
    ((handle_payment_failure now s).1).grace_period_end = some e := by
  obtain ⟨c, ge⟩ := s
  unfold FSInv at hinv
  cases c with
  | zero => simp_all
  | succ k =>
    simp only at h
    subst h
    simp [handle_payment_failure]
    split <;> rfl

theorem handle_no_typeError (now : Nat) (s : FailureState) (hinv : FSInv s) :
    ∀ e, (handle_payment_failure now s).2 ≠ Except.error e := by
  obtain ⟨c, ge⟩ := s
  unfold FSInv at hinv
  cases c with
  | zero => simp [handle_payment_failure]
  | succ k =>
    cases ge with
    | none => simp at hinv
    | some d =>
      simp [handle_payment_failure]
      split <;> simp

theorem initiate_state_cases (cfg : Config) (s : FailureState)
    (phone tier : String) (n : Int) (g : GetResult) (p : PostResult)
    (now : Nat) (ts : List Nat) :
    (initiate_payment cfg s phone tier n g p now ts).state = s ∨
    (initiate_payment cfg s phone tier n g p now ts).state =
      (handle_payment_failure now s).1 := by
  unfold initiate_payment
  split
  · split
    · left; rfl
    · left; rfl
    · split
      · left; rfl
      · split
        · left; rfl
        · split
          · left; rfl
          · split
            · right; rfl
            · split
              · right; rfl
              · left; rfl
  · left; rfl

theorem stepFS_state_cases (cfg : Config) (s : FailureState) (op : Op) :
    stepFS cfg s op = s ∨
    ∃ now, stepFS cfg s op = (handle_payment_failure now s).1 := by
  cases op with
  | initiate phone tier n g p now ts =>
    rcases initiate_state_cases cfg s phone tier n g p now ts with h | h
    · left; exact h
    · right; exact ⟨now, h⟩
  | recordFailure now => right; exact ⟨now, rfl⟩

theorem stepFS_FSInv (cfg : Config) (s : FailureState) (op : Op)
    (h : FSInv s) : FSInv (stepFS cfg s op) := by
  rcases stepFS_state_cases cfg s op with he | ⟨now, he⟩
  · rw [he]; exact h
  · rw [he]; exact handle_FSInv now s h

theorem stepFS_end_mono (cfg : Config) (s : FailureState) (op : Op) (e : Nat)
    (hinv : FSInv s) (h : s.grace_period_end = some e) :
    (stepFS cfg s op).grace_period_end = some e := by
  rcases stepFS_state_cases cfg s op with he | ⟨now, he⟩
  · rw [he]; exact h
  · rw [he]; exact handle_end_mono now s e hinv h

theorem foldl_FSInv (cfg : Config) (l : List Op) :
    ∀ s : FailureState, FSInv s → FSInv (l.foldl (stepFS cfg) s) := by
  induction l with
  | nil => intro s h; exact h
  | cons op rest ih =>
    intro s h
    exact ih (stepFS cfg s op) (stepFS_FSInv cfg s op h)

theorem foldl_end_mono (cfg : Config) (l : List Op) :
    ∀ (s : FailureState) (e : Nat), FSInv s → s.grace_period_end = some e →
      (l.foldl (stepFS cfg) s).grace_period_end = some e := by
  induction l with
  | nil => intro s e _ h; exact h
  | cons op rest ih =>
    intro s e hinv h
    exact ih (stepFS cfg s op) e (stepFS_FSInv cfg s op hinv)
      (stepFS_end_mono cfg s op e hinv h)

theorem runOps_FSInv (cfg : Config) (ops : List Op) :
    FSInv (runOps cfg ops) :=
  foldl_FSInv cfg ops initFailureState FSInv_init

/-- Concrete configuration used to instantiate universally quantified
theorems (shortcode and passkey as the byte strings of "600977" and
"passkey", as in the example usage of `app.py`). -/
def cfg0 : Config :=
  ⟨"key", "secret", [54, 48, 48, 57, 55, 55],
   [112, 97, 115, 115, 107, 101, 121], "http://127.0.0.1:5000/callback"⟩

/-- C1: `handle_payment_failure` (`FailurePolicy.recordFailure`) is the
three-branch state machine: from count 0 it sets count 1 and the grace end
to now + 7 days; from count ≥ 1 with the deadline still ahead it increments
the count and keeps the deadline, emitting the time-remaining notice; from
count ≥ 1 with the deadline passed it emits the suspension notice and still
increments the count. No call returns the count to 0. -/
theorem recordFailure_state_machine (s : FailureState) (now : Nat) :
    ((handle_payment_failure now s).1.failed_payment_attempts =
        s.failed_payment_attempts + 1) ∧
    (handle_payment_failure now s).1.failed_payment_attempts ≠ 0 ∧
    (s.failed_payment_attempts = 0 →
      (handle_payment_failure now s).1.grace_period_end =
          some (now + GRACE_PERIOD_DAYS * 86400) ∧
      (handle_payment_failure now s).2 = Except.ok Notice.gracePeriodStarted) ∧
    (∀ e, s.failed_payment_attempts ≠ 0 → s.grace_period_end = some e →
      (handle_payment_failure now s).1.grace_period_end = some e ∧
      (now < e → (handle_payment_failure now s).2 =
          Except.ok (Notice.timeRemaining e)) ∧
      (¬ now < e → (handle_payment_failure now s).2 =
          Except.ok Notice.suspended)) := by
  obtain ⟨c, ge⟩ := s
  refine ⟨handle_count now ⟨c, ge⟩, ?_, ?_, ?_⟩
  · rw [handle_count now ⟨c, ge⟩]; omega
  · intro hc
    simp only at hc
    subst hc
    constructor <;> rfl
  · intro e hc hge
    simp only at hc hge
    subst hge
    simp only [handle_payment_failure]
    rw [if_neg (show ¬ (c + 1 = 1) from by omega)]
    by_cases hlt : now < e
    · rw [if_pos hlt]
      exact ⟨rfl, fun _ => rfl, fun h => absurd hlt h⟩
    · rw [if_neg hlt]
      exact ⟨rfl, fun h => absurd h hlt, fun _ => rfl⟩

theorem recordFailure_state_machine_witness :
    (handle_payment_failure 5 initFailureState).1.grace_period_end =
        some (5 + GRACE_PERIOD_DAYS * 86400) ∧
    (handle_payment_failure 3 ⟨1, some 10⟩).2 =
        Except.ok (Notice.timeRemaining 10) ∧
    (handle_payment_failure 99 ⟨1, some 10⟩).2 = Except.ok Notice.suspended :=
  ⟨((recordFailure_state_machine initFailureState 5).2.2.1 rfl).1,
   ((recordFailure_state_machine ⟨1, some 10⟩ 3).2.2.2 10 (by decide) rfl).2.1
     (by decide),
   ((recordFailure_state_machine ⟨1, some 10⟩ 99).2.2.2 10 (by decide) rfl).2.2
     (by decide)⟩

/-- C8: across every operation sequence on one `PaymentModule` instance
(starting from construction), the grace-period end is set iff at least one
failure has been recorded; once set it is never changed by any further
operations; and the deadline comparison in `handle_payment_failure` never
reads an absent grace-period end (no `TypeError` is possible). -/
theorem failure_state_invariant (cfg : Config) (ops : List Op) :
    ((runOps cfg ops).grace_period_end.isSome = true ↔
      1 ≤ (runOps cfg ops).failed_payment_attempts) ∧
    (∀ e, (runOps cfg ops).grace_period_end = some e →
      ∀ more, (runOps cfg (ops ++ more)).grace_period_end = some e) ∧
    (∀ now, (handle_payment_failure now (runOps cfg ops)).2 ≠
      Except.error PyErr.typeError) := by
  refine ⟨runOps_FSInv cfg ops, ?_, ?_⟩
  · intro e he more
    show (List.foldl (stepFS cfg) initFailureState (ops ++ more)).grace_period_end
      = some e
    rw [List.foldl_append]
    exact foldl_end_mono cfg more (runOps cfg ops) e (runOps_FSInv cfg ops) he
  · intro now
    exact handle_no_typeError now (runOps cfg ops) (runOps_FSInv cfg ops)
      PyErr.typeError

theorem failure_state_invariant_witness :
    (runOps cfg0 ([Op.recordFailure 5] ++ [Op.recordFailure 6])).grace_period_end
      = some (5 + GRACE_PERIOD_DAYS * 86400) :=
  (failure_state_invariant cfg0 [Op.recordFailure 5]).2.1
    (5 + GRACE_PERIOD_DAYS * 86400) rfl [Op.recordFailure 6]

/-! ## Helper lemmas: tiers and phone validation -/

theorem tiersGet_cases (k : String) (td : TierInfo)
    (h : tiersGet k = some td) :
    (k = "starter" ∧ td = ⟨100, some 10⟩) ∨
    (k = "pro" ∧ td = ⟨300, some 100⟩) ∨
    (k = "enterprise" ∧ td = ⟨500, none⟩) := by
  by_cases h1 : k = "starter"
  · subst h1
    rw [show tiersGet "starter" = some ⟨100, some 10⟩ from rfl] at h
    exact Or.inl ⟨rfl, (Option.some.inj h).symm⟩
  · by_cases h2 : k = "pro"
    · subst h2
      rw [show tiersGet "pro" = some ⟨300, some 100⟩ from rfl] at h
      exact Or.inr (Or.inl ⟨rfl, (Option.some.inj h).symm⟩)
    · by_cases h3 : k = "enterprise"
      · subst h3
        rw [show tiersGet "enterprise" = some ⟨500, none⟩ from rfl] at h
        exact Or.inr (Or.inr ⟨rfl, (Option.some.inj h).symm⟩)
      · exfalso
        have e1 : ("starter" == k) = false := beq_eq_false_iff_ne.mpr (Ne.symm h1)
        have e2 : ("pro" == k) = false := beq_eq_false_iff_ne.mpr (Ne.symm h2)
        have e3 : ("enterprise" == k) = false :=
          beq_eq_false_iff_ne.mpr (Ne.symm h3)
        simp [tiersGet, SUBSCRIPTION_TIERS, List.find?, e1, e2, e3] at h

theorem digitsThenEnd_iff (k : Nat) :
    ∀ cs : List Char, digitsThenEnd k cs = true ↔
      ∃ ds : List Char, ds.length = k ∧ ds.all isPyDigit = true ∧
        (cs = ds ∨ cs = ds ++ ['\n']) := by
  induction k with
  | zero =>
    intro cs
    constructor
    · intro h
      refine ⟨[], rfl, rfl, ?_⟩
      rcases cs with _ | ⟨c, _ | ⟨c2, cs3⟩⟩
      · exact Or.inl rfl
      · have : c = '\n' := by simpa [digitsThenEnd, dollarAtEnd] using h
        subst this
        exact Or.inr rfl
      · simp [digitsThenEnd, dollarAtEnd] at h
    · rintro ⟨ds, hlen, _, (rfl | rfl)⟩ <;>
        rw [List.length_eq_zero.mp hlen] <;> rfl
  | succ k ih =>
    intro cs
    constructor
    · intro h
      rcases cs with _ | ⟨c, rest⟩
      · simp [digitsThenEnd] at h
      · rw [show digitsThenEnd (k + 1) (c :: rest) =
            (isPyDigit c && digitsThenEnd k rest) from rfl] at h
        rw [Bool.and_eq_true] at h
        obtain ⟨ds, hlen, hall, hcase⟩ := (ih rest).mp h.2
        refine ⟨c :: ds, by simp [hlen], by simp [List.all_cons, h.1, hall], ?_⟩
        rcases hcase with rfl | rfl
        · exact Or.inl rfl
        · exact Or.inr rfl
    · rintro ⟨ds, hlen, hall, hcase⟩
      rcases ds with _ | ⟨d, ds2⟩
      · simp at hlen
      · have hlen2 : ds2.length = k := by simpa using hlen
        rw [List.all_cons, Bool.and_eq_true] at hall
        rcases hcase with rfl | rfl
        · rw [show digitsThenEnd (k + 1) (d :: ds2) =
              (isPyDigit d && digitsThenEnd k ds2) from rfl]
          rw [Bool.and_eq_true]
          exact ⟨hall.1, (ih ds2).mpr ⟨ds2, hlen2, hall.2, Or.inl rfl⟩⟩
        · rw [show (d :: ds2) ++ ['\n'] = d :: (ds2 ++ ['\n']) from rfl]
          rw [show digitsThenEnd (k + 1) (d :: (ds2 ++ ['\n'])) =
              (isPyDigit d && digitsThenEnd k (ds2 ++ ['\n'])) from rfl]
          rw [Bool.and_eq_true]
          exact ⟨hall.1, (ih _).mpr ⟨ds2, hlen2, hall.2, Or.inr rfl⟩⟩

/-- C5 (counterexample): the claim says `validate_phone_number` accepts
exactly 12-digit strings `2547` + 8 digits and rejects every longer string;
but Python `re`'s `$` also matches just before a final newline, so the
13-character string "254712345678\n" is accepted. -/
theorem validate_phone_number_counterexample :
    validate_phone_number "254712345678\n" = true ∧
    "254712345678\n".length ≠ 12 := by
  constructor
  · rfl
  · decide

/-- C5 (amended): `validate_phone_number` returns true exactly for strings
consisting of `2547` followed by exactly 8 digits, or of such a 12-digit
string followed by one trailing newline (the Python `$` anchor matches
before a single final newline); every other string is rejected. -/
theorem validate_phone_number_spec (s : String) :
    validate_phone_number s = true ↔
      ∃ ds : List Char, ds.length = 8 ∧ ds.all isPyDigit = true ∧
        (s.data = ['2', '5', '4', '7'] ++ ds ∨
         s.data = ['2', '5', '4', '7'] ++ ds ++ ['\n']) := by
  unfold validate_phone_number
  rcases hs : s.data with _ | ⟨c1, _ | ⟨c2, _ | ⟨c3, _ | ⟨c4, rest⟩⟩⟩⟩ <;>
    simp only [hs]
  · simp
  · constructor
    · intro h; cases h
    · rintro ⟨ds, hlen, _, (h | h)⟩ <;>
        (exfalso; have := congrArg List.length h; simp [hlen] at this)
  · constructor
    · intro h; cases h
    · rintro ⟨ds, hlen, _, (h | h)⟩ <;>
        (exfalso; have := congrArg List.length h; simp [hlen] at this)
  · constructor
    · intro h; cases h
    · rintro ⟨ds, hlen, _, (h | h)⟩ <;>
        (exfalso; have := congrArg List.length h; simp [hlen] at this)
  · simp only [Bool.and_eq_true, beq_iff_eq]
    constructor
    · rintro ⟨⟨⟨⟨rfl, rfl⟩, rfl⟩, rfl⟩, h⟩
      obtain ⟨ds, hlen, hall, hcase⟩ := (digitsThenEnd_iff 8 rest).mp h
      refine ⟨ds, hlen, hall, ?_⟩
      rcases hcase with rfl | rfl
      · exact Or.inl rfl
      · exact Or.inr rfl
    · rintro ⟨ds, hlen, hall, (h | h)⟩ <;>
        (injection h with e1 h; injection h with e2 h;
         injection h with e3 h; injection h with e4 h;
         subst e1; subst e2; subst e3; subst e4;
         (try simp only [List.append_eq, List.nil_append] at h); subst h;
         refine ⟨⟨⟨⟨rfl, rfl⟩, rfl⟩, rfl⟩, ?_⟩)
      · exact (digitsThenEnd_iff 8 _).mpr ⟨_, hlen, hall, Or.inl rfl⟩
      · exact (digitsThenEnd_iff 8 (ds ++ ['\n'])).mpr
          ⟨ds, hlen, hall, Or.inr rfl⟩

theorem validate_phone_number_spec_witness :
    validate_phone_number "254712345678" = true :=
  (validate_phone_number_spec "254712345678").mpr
    ⟨['1', '2', '3', '4', '5', '6', '7', '8'], rfl, rfl, Or.inl (by decide)⟩

/-- C6: for every tier key in the subscription table and every count ≥ 0,
`validate_branch_limit` returns false exactly when the count exceeds the
global per-action cap of 10 or the tier has a finite limit that the count
exceeds; otherwise (count at or below both bounds) it returns true. In
particular a count equal to the limit passes. -/
theorem validate_branch_limit_spec (tier : String) (td : TierInfo)
    (htier : tiersGet tier = some td) (n : Int) (hn : 0 ≤ n) :
    (validate_branch_limit tier n = Except.ok false ↔
      (10 < n ∨ ∃ l, td.limit = some l ∧ l < n)) ∧
    (validate_branch_limit tier n = Except.ok true ↔
      ¬ (10 < n ∨ ∃ l, td.limit = some l ∧ l < n)) := by
  rcases tiersGet_cases tier td htier with ⟨hk, htd⟩ | ⟨hk, htd⟩ | ⟨hk, htd⟩ <;>
    subst hk <;> subst htd
  · have heval : validate_branch_limit "starter" n =
        (if (10 : Int) < n then Except.ok false
         else if (10 : Int) < n then Except.ok false else Except.ok true) := rfl
    by_cases hcap : (10 : Int) < n <;> simp [heval, hcap]
  · have heval : validate_branch_limit "pro" n =
        (if (10 : Int) < n then Except.ok false
         else if (100 : Int) < n then Except.ok false else Except.ok true) := rfl
    by_cases hcap : (10 : Int) < n
    · simp [heval, hcap]
    · have h100 : ¬ (100 : Int) < n := by omega
      simp [heval, hcap, h100]
  · have heval : validate_branch_limit "enterprise" n =
        (if (10 : Int) < n then Except.ok false else Except.ok true) := rfl
    by_cases hcap : (10 : Int) < n <;> simp [heval, hcap]

theorem validate_branch_limit_spec_witness :
    validate_branch_limit "starter" 10 = Except.ok true ∧
    validate_branch_limit "starter" 11 = Except.ok false ∧
    validate_branch_limit "enterprise" 10 = Except.ok true :=
  ⟨(validate_branch_limit_spec "starter" ⟨100, some 10⟩ (by decide) 10
      (by decide)).2.mpr
      (by rintro (h | ⟨l, hl, h2⟩)
          · exact absurd h (by decide)
          · injection hl with e; subst e; exact absurd h2 (by decide)),
   (validate_branch_limit_spec "starter" ⟨100, some 10⟩ (by decide) 11
      (by decide)).1.mpr (Or.inl (by decide)),
   (validate_branch_limit_spec "enterprise" ⟨500, none⟩ (by decide) 10
      (by decide)).2.mpr
      (by rintro (h | ⟨l, hl, h2⟩)
          · exact absurd h (by decide)
          · cases hl)⟩

/-- C4: the claim says an unknown tier name makes `initiate_payment` return
null before any network call without raising; in the code the branch-limit
check indexes `SUBSCRIPTION_TIERS[subscription_tier]` first, so an unknown
tier with a branch count within the global cap raises `KeyError` before the
dedicated unknown-tier guard (line 96-99 of `app.py`, which would return
null) can run. At the failing input (valid phone, tier "gold", 0 branches)
the call propagates `KeyError` with the failure state untouched and no
network request issued. -/
theorem unknown_tier_raises_keyError :
    (initiate_payment cfg0 initFailureState "254712345678" "gold" 0
        GetResult.transportError PostResult.transportError 0 []).result =
      Except.error (PyErr.keyError "gold") ∧
    (initiate_payment cfg0 initFailureState "254712345678" "gold" 0
        GetResult.transportError PostResult.transportError 0 []).state =
      initFailureState ∧
    (initiate_payment cfg0 initFailureState "254712345678" "gold" 0
        GetResult.transportError PostResult.transportError 0 []).payload =
      none ∧
    tiersGet "gold" = none ∧
    validate_branch_limit "gold" 0 = Except.error (PyErr.keyError "gold") :=
  ⟨rfl, rfl, rfl, rfl, rfl⟩

/-! ## Helper lemmas: the happy path of `initiate_payment` -/

theorem validate_branch_limit_ok (tier : String) (td : TierInfo)
    (htier : tiersGet tier = some td) (n : Int) (hn10 : n ≤ 10) :
    validate_branch_limit tier n = Except.ok true := by
  rcases tiersGet_cases tier td htier with ⟨hk, _⟩ | ⟨hk, _⟩ | ⟨hk, _⟩ <;>
    subst hk
  · have heval : validate_branch_limit "starter" n =
        (if (10 : Int) < n then Except.ok false
         else if (10 : Int) < n then Except.ok false else Except.ok true) := rfl
    simp [heval, show ¬ (10 : Int) < n from by omega]
  · have heval : validate_branch_limit "pro" n =
        (if (10 : Int) < n then Except.ok false
         else if (100 : Int) < n then Except.ok false else Except.ok true) := rfl
    simp [heval, show ¬ (10 : Int) < n from by omega,
      show ¬ (100 : Int) < n from by omega]
  · have heval : validate_branch_limit "enterprise" n =
        (if (10 : Int) < n then Except.ok false else Except.ok true) := rfl
    simp [heval, show ¬ (10 : Int) < n from by omega]

theorem tiersGet_pyLower (tier : String) (td : TierInfo)
    (htier : tiersGet tier = some td) : tiersGet (pyLower tier) = some td := by
  rcases tiersGet_cases tier td htier with ⟨hk, htd⟩ | ⟨hk, htd⟩ | ⟨hk, htd⟩ <;>
    subst hk <;> subst htd <;> rfl

theorem tiersGet_price_pos (tier : String) (td : TierInfo)
    (htier : tiersGet tier = some td) : (100 : Int) ≤ td.price := by
  rcases tiersGet_cases tier td htier with ⟨_, htd⟩ | ⟨_, htd⟩ | ⟨_, htd⟩ <;>
    subst htd <;> decide

theorem handle_ok_of_inv (now : Nat) (s : FailureState)
    (hinv : s.failed_payment_attempts = 0 ∨ s.grace_period_end.isSome = true) :
    ∃ ntc, (handle_payment_failure now s).2 = Except.ok ntc := by
  obtain ⟨c, ge⟩ := s
  cases c with
  | zero => exact ⟨Notice.gracePeriodStarted, rfl⟩
  | succ k =>
    rcases hinv with h | h
    · cases h
    · rcases ge with _ | e
      · cases h
      · by_cases hlt : now < e
        · refine ⟨Notice.timeRemaining e, ?_⟩
          simp [handle_payment_failure, hlt]
        · refine ⟨Notice.suspended, ?_⟩
          simp [handle_payment_failure, hlt]

/-- C3: with a valid phone, a tier from the table, a branch count between 0
and 10 and a usable access token, `initiate_payment` issues the push request
with the payload Amount equal to basePrice(tier) + 100 × branchCount, a
non-negative integer. -/
theorem amount_formula (cfg : Config) (s : FailureState)
    (phone tier : String) (n : Int) (td : TierInfo) (tok : String)
    (g : GetResult) (p : PostResult) (now : Nat) (ts : List Nat)
    (hphone : validate_phone_number phone = true)
    (htier : tiersGet tier = some td)
    (hn0 : 0 ≤ n) (hn10 : n ≤ 10)
    (htok : get_access_token g = some tok) (htok2 : tok ≠ "") :
    ∃ pl : Payload,
      (initiate_payment cfg s phone tier n g p now ts).payload = some pl ∧
      pl.Amount = td.price + 100 * n ∧ 0 ≤ pl.Amount := by
  have hbranch := validate_branch_limit_ok tier td htier n hn10
  have htier2 := tiersGet_pyLower tier td htier
  have hprice := tiersGet_price_pos tier td htier
  refine ⟨⟨cfg.shortcode, generate_password cfg ts, ts, "CustomerBuyGoodsOnline",
    td.price + n * 100, phone, cfg.shortcode, phone, cfg.callback_url,
    "Vendor_" ++ phone,
    pyCapitalize tier ++ " subscription with " ++ toString n ++ " branches"⟩,
    ?_, by dsimp only; omega, by dsimp only; omega⟩
  cases p with
  | transportError =>
    simp [initiate_payment, hphone, hbranch, htier2, htok, htok2]
  | response rd =>
    by_cases hrc : jsonGet rd "ResponseCode" = some "0" <;>
      simp [initiate_payment, hphone, hbranch, htier2, htok, htok2, hrc]

theorem amount_formula_witness :
    ∃ pl : Payload,
      (initiate_payment cfg0 initFailureState "254712345678" "pro" 5
          (GetResult.response true [("access_token", "tok")])
          (PostResult.response [("ResponseCode", "0")]) 0 [48]).payload =
        some pl ∧
      pl.Amount = (300 : Int) + 100 * 5 ∧ 0 ≤ pl.Amount :=
  amount_formula cfg0 initFailureState "254712345678" "pro" 5 ⟨300, some 100⟩
    "tok" (GetResult.response true [("access_token", "tok")])
    (PostResult.response [("ResponseCode", "0")]) 0 [48]
    rfl rfl (by decide) (by decide) rfl (by decide)

/-- C10 (implicit): `validate_branch_limit` imposes no lower bound, so a
negative branch count passes validation for every tier and the computed
Amount is basePrice + 100 × n, strictly below the tier's base price (and
possibly negative). -/
theorem negative_branch_count (cfg : Config) (s : FailureState)
    (phone tier : String) (n : Int) (td : TierInfo) (tok : String)
    (g : GetResult) (p : PostResult) (now : Nat) (ts : List Nat)
    (hphone : validate_phone_number phone = true)
    (htier : tiersGet tier = some td) (hneg : n < 0)
    (htok : get_access_token g = some tok) (htok2 : tok ≠ "") :
    validate_branch_limit tier n = Except.ok true ∧
    ∃ pl : Payload,
      (initiate_payment cfg s phone tier n g p now ts).payload = some pl ∧
      pl.Amount = td.price + 100 * n ∧ pl.Amount < td.price := by
  have hbranch := validate_branch_limit_ok tier td htier n (by omega)
  have htier2 := tiersGet_pyLower tier td htier
  refine ⟨hbranch,
    ⟨cfg.shortcode, generate_password cfg ts, ts, "CustomerBuyGoodsOnline",
     td.price + n * 100, phone, cfg.shortcode, phone, cfg.callback_url,
     "Vendor_" ++ phone,
     pyCapitalize tier ++ " subscription with " ++ toString n ++ " branches"⟩,
    ?_, by dsimp only; omega, by dsimp only; omega⟩
  cases p with
  | transportError =>
    simp [initiate_payment, hphone, hbranch, htier2, htok, htok2]
  | response rd =>
    by_cases hrc : jsonGet rd "ResponseCode" = some "0" <;>
      simp [initiate_payment, hphone, hbranch, htier2, htok, htok2, hrc]

theorem negative_branch_count_witness :
    validate_branch_limit "starter" (-2) = Except.ok true ∧
    ∃ pl : Payload,
      (initiate_payment cfg0 initFailureState "254712345678" "starter" (-2)
          (GetResult.response true [("access_token", "tok")])
          (PostResult.response [("ResponseCode", "0")]) 0 [48]).payload =
        some pl ∧
      pl.Amount = (⟨100, some 10⟩ : TierInfo).price + 100 * (-2) ∧
      pl.Amount < (⟨100, some 10⟩ : TierInfo).price :=
  negative_branch_count cfg0 initFailureState "254712345678" "starter" (-2)
    ⟨100, some 10⟩ "tok" (GetResult.response true [("access_token", "tok")])
    (PostResult.response [("ResponseCode", "0")]) 0 [48]
    rfl rfl (by decide) rfl (by decide)

/-- C7: whenever access-token acquisition yields no usable token (transport
error, non-2xx status, missing `access_token` field — all of which make
`get_access_token` return nothing — or a falsy empty token), and control
reaches the token step, `initiate_payment` returns null and leaves the
failure state exactly as it was: `handle_payment_failure` is not invoked on
the auth-failure path, and no push request is issued. -/
theorem auth_failure_frame (cfg : Config) (s : FailureState)
    (phone tier : String) (n : Int) (td : TierInfo)
    (g : GetResult) (p : PostResult) (now : Nat) (ts : List Nat)
    (hphone : validate_phone_number phone = true)
    (hbranch : validate_branch_limit tier n = Except.ok true)
    (htier : tiersGet (pyLower tier) = some td)
    (hauth : get_access_token g = none ∨ get_access_token g = some "") :
    (initiate_payment cfg s phone tier n g p now ts).result = Except.ok none ∧
    (initiate_payment cfg s phone tier n g p now ts).state = s ∧
    (initiate_payment cfg s phone tier n g p now ts).recordedFailures = 0 ∧
    (initiate_payment cfg s phone tier n g p now ts).payload = none := by
  rcases hauth with h | h <;>
    simp [initiate_payment, hphone, hbranch, htier, h]

theorem auth_failure_frame_witness :
    (initiate_payment cfg0 ⟨2, some 77⟩ "254712345678" "pro" 5
        GetResult.transportError PostResult.transportError 9 [48]).result =
      Except.ok none ∧
    (initiate_payment cfg0 ⟨2, some 77⟩ "254712345678" "pro" 5
        GetResult.transportError PostResult.transportError 9 [48]).state =
      ⟨2, some 77⟩ ∧
    (initiate_payment cfg0 ⟨2, some 77⟩ "254712345678" "pro" 5
        GetResult.transportError PostResult.transportError 9 [48]).recordedFailures
      = 0 ∧
    (initiate_payment cfg0 ⟨2, some 77⟩ "254712345678" "pro" 5
        GetResult.transportError PostResult.transportError 9 [48]).payload =
      none :=
  auth_failure_frame cfg0 ⟨2, some 77⟩ "254712345678" "pro" 5 ⟨300, some 100⟩
    GetResult.transportError PostResult.transportError 9 [48]
    rfl rfl rfl (Or.inl rfl)

/-- C2: once the push POST is reached (valid phone and branch count, known
tier, usable token, well-formed failure state), `handle_payment_failure` is
invoked exactly when the POST fails at transport level or the response's
ResponseCode differs from "0": a transport error records one failure and
returns null; a response with ResponseCode ≠ "0" records one failure and
still returns the response body; a response with ResponseCode "0" records
no failure, leaves the failure state untouched, and returns the body. -/
theorem post_failure_policy (cfg : Config) (s : FailureState)
    (phone tier : String) (n : Int) (td : TierInfo) (tok : String)
    (g : GetResult) (now : Nat) (ts : List Nat)
    (hphone : validate_phone_number phone = true)
    (hbranch : validate_branch_limit tier n = Except.ok true)
    (htier : tiersGet (pyLower tier) = some td)
    (htok : get_access_token g = some tok) (htok2 : tok ≠ "")
    (hinv : s.failed_payment_attempts = 0 ∨ s.grace_period_end.isSome = true) :
    ((initiate_payment cfg s phone tier n g PostResult.transportError now
        ts).recordedFailures = 1 ∧
     (initiate_payment cfg s phone tier n g PostResult.transportError now
        ts).result = Except.ok none ∧
     (initiate_payment cfg s phone tier n g PostResult.transportError now
        ts).state = (handle_payment_failure now s).1) ∧
    (∀ rd, jsonGet rd "ResponseCode" ≠ some "0" →
      (initiate_payment cfg s phone tier n g (PostResult.response rd) now
          ts).recordedFailures = 1 ∧
      (initiate_payment cfg s phone tier n g (PostResult.response rd) now
          ts).result = Except.ok (some rd) ∧
      (initiate_payment cfg s phone tier n g (PostResult.response rd) now
          ts).state = (handle_payment_failure now s).1) ∧
    (∀ rd, jsonGet rd "ResponseCode" = some "0" →
      (initiate_payment cfg s phone tier n g (PostResult.response rd) now
          ts).recordedFailures = 0 ∧
      (initiate_payment cfg s phone tier n g (PostResult.response rd) now
          ts).result = Except.ok (some rd) ∧
      (initiate_payment cfg s phone tier n g (PostResult.response rd) now
          ts).state = s) := by
  obtain ⟨ntc, hok⟩ := handle_ok_of_inv now s hinv
  refine ⟨?_, ?_, ?_⟩
  · simp [initiate_payment, hphone, hbranch, htier, htok, htok2, hok]
  · intro rd hrc
    simp [initiate_payment, hphone, hbranch, htier, htok, htok2, hok, hrc]
  · intro rd hrc
    simp [initiate_payment, hphone, hbranch, htier, htok, htok2, hrc]

theorem post_failure_policy_witness :
    ((initiate_payment cfg0 initFailureState "254712345678" "pro" 5
        (GetResult.response true [("access_token", "tok")])
        PostResult.transportError 0 [48]).recordedFailures = 1 ∧
     (initiate_payment cfg0 initFailureState "254712345678" "pro" 5
        (GetResult.response true [("access_token", "tok")])
        PostResult.transportError 0 [48]).result = Except.ok none ∧
     (initiate_payment cfg0 initFailureState "254712345678" "pro" 5
        (GetResult.response true [("access_token", "tok")])
        PostResult.transportError 0 [48]).state =
       (handle_payment_failure 0 initFailureState).1) ∧
    ((initiate_payment cfg0 initFailureState "254712345678" "pro" 5
        (GetResult.response true [("access_token", "tok")])
        (PostResult.response [("ResponseCode", "1")]) 0 [48]).recordedFailures
        = 1 ∧
     (initiate_payment cfg0 initFailureState "254712345678" "pro" 5
        (GetResult.response true [("access_token", "tok")])
        (PostResult.response [("ResponseCode", "1")]) 0 [48]).result =
       Except.ok (some [("ResponseCode", "1")]) ∧
     (initiate_payment cfg0 initFailureState "254712345678" "pro" 5
        (GetResult.response true [("access_token", "tok")])
        (PostResult.response [("ResponseCode", "1")]) 0 [48]).state =
       (handle_payment_failure 0 initFailureState).1) ∧
    ((initiate_payment cfg0 initFailureState "254712345678" "pro" 5
        (GetResult.response true [("access_token", "tok")])
        (PostResult.response [("ResponseCode", "0")]) 0 [48]).recordedFailures
        = 0 ∧
     (initiate_payment cfg0 initFailureState "254712345678" "pro" 5
        (GetResult.response true [("access_token", "tok")])
        (PostResult.response [("ResponseCode", "0")]) 0 [48]).result =
       Except.ok (some [("ResponseCode", "0")]) ∧
     (initiate_payment cfg0 initFailureState "254712345678" "pro" 5
        (GetResult.response true [("access_token", "tok")])
        (PostResult.response [("ResponseCode", "0")]) 0 [48]).state =
       initFailureState) :=
  ⟨(post_failure_policy cfg0 initFailureState "254712345678" "pro" 5
      ⟨300, some 100⟩ "tok" (GetResult.response true [("access_token", "tok")])
      0 [48] rfl rfl rfl rfl (by decide) (Or.inl rfl)).1,
   (post_failure_policy cfg0 initFailureState "254712345678" "pro" 5
      ⟨300, some 100⟩ "tok" (GetResult.response true [("access_token", "tok")])
      0 [48] rfl rfl rfl rfl (by decide) (Or.inl rfl)).2.1
      [("ResponseCode", "1")] (by decide),
   (post_failure_policy cfg0 initFailureState "254712345678" "pro" 5
      ⟨300, some 100⟩ "tok" (GetResult.response true [("access_token", "tok")])
      0 [48] rfl rfl rfl rfl (by decide) (Or.inl rfl)).2.2
      [("ResponseCode", "0")] (by decide)⟩

/-! ## Helper lemmas: base64 -/

theorem b64val_b64chr_fin : ∀ i : Fin 64, b64val (b64chr i.val) = some i.val := by
  decide

theorem b64val_b64chr (n : Nat) (h : n < 64) : b64val (b64chr n) = some n :=
  b64val_b64chr_fin ⟨n, h⟩

theorem b64val_pad : b64val '=' = none := by decide

theorem b64chr_ne_pad (n : Nat) (h : n < 64) : b64chr n ≠ '=' := by
  intro he
  have hv := b64val_b64chr n h
  rw [he, b64val_pad] at hv
  cases hv

theorem b64decode_quad1 (vw vx : Nat) (w x : Char)
    (hw : b64val w = some vw) (hx : b64val x = some vx) :
    b64decode [w, x, '=', '='] = some [vw * 4 + vx / 16] := by
  simp [b64decode, hw, hx]

theorem b64decode_quad2 (vw vx vy : Nat) (w x y : Char)
    (hw : b64val w = some vw) (hx : b64val x = some vx)
    (hy : b64val y = some vy) (hyne : y ≠ '=') :
    b64decode [w, x, y, '='] = some [vw * 4 + vx / 16, vx % 16 * 16 + vy / 4] := by
  simp [b64decode, hw, hx, hy, hyne]

theorem b64decode_quad (vw vx vy vz : Nat) (w x y z : Char)
    (rest : List Char) (bs : List Nat)
    (hw : b64val w = some vw) (hx : b64val x = some vx)
    (hy : b64val y = some vy) (hz : b64val z = some vz)
    (hyne : y ≠ '=') (hzne : z ≠ '=') (hrest : b64decode rest = some bs) :
    b64decode (w :: x :: y :: z :: rest) =
      some ((vw * 4 + vx / 16) :: (vx % 16 * 16 + vy / 4) ::
        (vy % 4 * 64 + vz) :: bs) := by
  simp [b64decode, hw, hx, hy, hz, hyne, hzne, hrest]

theorem bytesOk_cons (x : Nat) (xs : List Nat) :
    bytesOk (x :: xs) = (decide (x < 256) && bytesOk xs) := rfl

theorem b64_roundtrip : ∀ bs : List Nat, bytesOk bs = true →
    b64decode (b64encode bs) = some bs := by
  intro bs
  induction bs using b64encode.induct with
  | case1 => intro _; rfl
  | case2 a =>
    intro h
    have ha : a < 256 := by
      rw [bytesOk_cons, Bool.and_eq_true, decide_eq_true_eq] at h
      exact h.1
    rw [show b64encode [a] = [b64chr (a / 4), b64chr (a % 4 * 16), '=', '=']
        from rfl]
    rw [b64decode_quad1 _ _ _ _ (b64val_b64chr _ (by omega))
        (b64val_b64chr _ (by omega))]
    have e1 : a / 4 * 4 + a % 4 * 16 / 16 = a := by omega
    rw [e1]
  | case3 a b =>
    intro h
    rw [bytesOk_cons, bytesOk_cons, Bool.and_eq_true, Bool.and_eq_true,
      decide_eq_true_eq, decide_eq_true_eq] at h
    obtain ⟨ha, hb, _⟩ := h
    rw [show b64encode [a, b] = [b64chr (a / 4), b64chr (a % 4 * 16 + b / 16),
        b64chr (b % 16 * 4), '='] from rfl]
    rw [b64decode_quad2 _ _ _ _ _ _ (b64val_b64chr _ (by omega))
        (b64val_b64chr _ (by omega)) (b64val_b64chr _ (by omega))
        (b64chr_ne_pad _ (by omega))]
    have e1 : a / 4 * 4 + (a % 4 * 16 + b / 16) / 16 = a := by omega
    have e2 : (a % 4 * 16 + b / 16) % 16 * 16 + b % 16 * 4 / 4 = b := by omega
    rw [e1, e2]
  | case4 a b c rest ih =>
    intro h
    rw [bytesOk_cons, bytesOk_cons, bytesOk_cons, Bool.and_eq_true,
      Bool.and_eq_true, Bool.and_eq_true, decide_eq_true_eq,
      decide_eq_true_eq, decide_eq_true_eq] at h
    obtain ⟨ha, hb, hc, hrest⟩ := h
    rw [show b64encode (a :: b :: c :: rest) =
        b64chr (a / 4) :: b64chr (a % 4 * 16 + b / 16) ::
          b64chr (b % 16 * 4 + c / 64) :: b64chr (c % 64) :: b64encode rest
        from rfl]
    rw [b64decode_quad _ _ _ _ _ _ _ _ _ _ (b64val_b64chr _ (by omega))
        (b64val_b64chr _ (by omega)) (b64val_b64chr _ (by omega))
        (b64val_b64chr _ (by omega)) (b64chr_ne_pad _ (by omega))
        (b64chr_ne_pad _ (by omega)) (ih hrest)]
    have e1 : a / 4 * 4 + (a % 4 * 16 + b / 16) / 16 = a := by omega
    have e2 : (a % 4 * 16 + b / 16) % 16 * 16 + (b % 16 * 4 + c / 64) / 4 = b := by
      omega
    have e3 : (b % 16 * 4 + c / 64) % 4 * 64 + c % 64 = c := by omega
    rw [e1, e2, e3]

/-- C9: for every shortcode, passkey and timestamp (byte strings),
base64-decoding the output of `generate_password` yields exactly the
concatenation shortcode ‖ passkey ‖ timestamp with the same timestamp that
was passed in; `generate_password` is a pure function of its inputs
(deterministic, no side effects). -/
theorem generate_password_roundtrip (cfg : Config) (ts : List Nat)
    (h : bytesOk (cfg.shortcode ++ cfg.passkey ++ ts) = true) :
    b64decode (generate_password cfg ts) =
      some (cfg.shortcode ++ cfg.passkey ++ ts) := by
  unfold generate_password
  exact b64_roundtrip _ h

theorem generate_password_roundtrip_witness :
    b64decode (generate_password cfg0 [50, 48, 50, 54]) =
      some (cfg0.shortcode ++ cfg0.passkey ++ [50, 48, 50, 54]) :=
  generate_password_roundtrip cfg0 [50, 48, 50, 54] (by decide)
